import Mathlib

/-!
# STK mesh use case 4: verification layer

A shallow embedding of `packages/stk/stk_mesh/use_cases/UseCase_4.cpp`:
the static node tables, `populate`, and the read-only verification functions
(`verify_elem_node_coord_4`, `verify_elem_side_node`,
`verify_boundary_field_data`, `verify_pressure_velocity_stencil`,
`verifyMesh`).

Conventions of the embedding.

* A C++ function that writes to `std::cerr` and returns `bool` becomes a
  function returning `Option Outcome`: `some ⟨result, cerr⟩` is a normal return
  with the returned boolean and the diagnostics written, in order; `none` is a
  run that indexes an array outside its extent (undefined behaviour in C++).
* The counter `unsigned num_side_nodes` of `verify_boundary_field_data`, which
  sums bucket sizes over a whole mesh, is a natural number kept modulo `2^32`.
  Loop indices, and the `(unsigned)` casts of the length of one entity's
  relation list, are natural numbers: a single entity does not have `2^32`
  node relations, so those casts are the identity.
* Pointers are natural numbers and `NULL` is `0`.
* `for ( unsigned j = 0 ; j < n ; ++j )` is `forEach body (List.range n)`.
-/

namespace UseCase4

/-! ## Data model -/

/-- Entity identifiers (`stk::mesh::EntityId`). -/
abbrev EntityId := Nat

/-- A part of the mesh meta data, identified by its name. -/
abbrev Part := String

/-- Addresses of field storage. -/
abbrev Ptr := Nat

/-- The null pointer. -/
def NULL : Ptr := 0

/-- Entity kinds of the finite-element entity types. -/
inductive EntityType where
  | Node
  | Edge
  | Face
  | Element
deriving DecidableEq, Repr

/-- A mesh entity as the verification layer observes it: its identifier, the
superset parts of the bucket it lives in (`entity.bucket().supersets(..)`), and
its ordered relations to nodes (`entity.relations( Node )`). -/
inductive Entity where
  | mk (identifier : EntityId) (bucket_supersets : List Part)
      (relations_Node : List Entity)

/-- The identifier of an entity, `entity.identifier()`. -/
def Entity.identifier : Entity → EntityId
  | .mk i _ _ => i

/-- The superset parts of the bucket of an entity. -/
def Entity.bucket_supersets : Entity → List Part
  | .mk _ ps _ => ps

/-- The node relations of an entity, `entity.relations( Node )`. -/
def Entity.relations_Node : Entity → List Entity
  | .mk _ _ r => r

/-- A bucket: the parts all members belong to, and the member entities in
bucket order. -/
structure Bucket where
  supersets : List Part
  entities : List Entity

/-- The test `has_superset( bucket , part )`. -/
def has_superset (bucket : Bucket) (part : Part) : Bool :=
  bucket.supersets.contains part

/-- The test `contain( parts , part )` on a part vector. -/
def contain (parts : List Part) (part : Part) : Bool :=
  parts.contains part

/-- The bulk data of a mesh, as read by the verification layer: the bucket
sequence of each entity kind. -/
structure BulkData where
  buckets : EntityType → List Bucket

/-- What `EntityArray< VectorFieldType >( field , entity )` exposes: the first
dimension, the total size, and the address of the storage (`NULL` when the
entity has no storage for the field). -/
structure EntityArray where
  dimension0 : Nat
  size : Nat
  contiguous_data : Ptr

/-- What `EntityArray< ElementNodePointerFieldType >( field , entity )` exposes:
the first dimension, the total size, and the pointers held in the storage that
`contiguous_data()` addresses (reading past them is a fault). -/
structure PointerEntityArray where
  dimension0 : Nat
  size : Nat
  contiguous_data : List Ptr

/-- A field of doubles: the array view it resolves to on each entity. -/
abbrev VectorFieldType := Entity → EntityArray

/-- A scalar field of doubles. -/
abbrev ScalarFieldType := Entity → EntityArray

/-- The element-node pointer field: on each entity, an array of pointers. -/
abbrev ElementNodePointerFieldType := Entity → PointerEntityArray

/-- The lookup `field_data( field , entity )`: the address of the entity's
storage for the field, `NULL` when absent. -/
def field_data (field : Entity → EntityArray) (entity : Entity) : Ptr :=
  (field entity).contiguous_data

/-- One side of a cell topology (`elem_top->side[ s ]`): the node count of the
side's own topology and the side node map. -/
structure Subcell where
  node_count : Nat
  node : List Nat
deriving DecidableEq, Repr

/-- Cell topology data (`CellTopologyData` and the traits of a Shards
topology): the counts the use case reads and the side table. -/
structure CellTopologyData where
  dimension : Nat
  node_count : Nat
  vertex_count : Nat
  edge_count : Nat
  face_count : Nat
  side : List Subcell

/-- The messages the verification layer writes to `std::cerr`. -/
inductive Diagnostic where
  /-- The text `Error!`. -/
  | error
  /-- The text `Error!  data == NULL`. -/
  | data_is_null
  /-- The text `Error!  data != NULL`. -/
  | data_not_null
  /-- The text `Error!  num_side_nodes == n !=  20!`. -/
  | num_side_nodes (n : Nat)
  /-- The text on differing `dimension`. -/
  | dimension_differs
  /-- The text on differing `vertex_count`. -/
  | vertex_count_differs
  /-- The text on differing `edge_count`. -/
  | edge_count_differs
  /-- The text on differing `face_count`. -/
  | face_count_differs
deriving DecidableEq, Repr

/-- The observable outcome of a verification function that returns: the
returned boolean and the diagnostics written to `std::cerr`. -/
structure Outcome where
  result : Bool
  cerr : List Diagnostic
deriving DecidableEq, Repr

/-- The state at `bool result = true;`. -/
def Outcome.start : Outcome := ⟨true, []⟩

/-- The statement `if ( violated ) { std::cerr << msg ; result = false ; }`. -/
def Outcome.check (o : Outcome) (violated : Bool) (msg : Diagnostic) : Outcome :=
  if violated then ⟨false, o.cerr ++ [msg]⟩ else o

/-- A loop over the items in order, threading the state; an iteration that
faults aborts the run. -/
def forEach {α σ : Type} (body : α → σ → Option σ) : List α → σ → Option σ
  | [], s => some s
  | x :: xs, s => (body x s).bind (forEach body xs)

/-- The statement `result = result && f( .. )`: when `result` is already false
the call is not evaluated (nothing is written, no fault can occur); otherwise
the call runs, its diagnostics follow those written so far, and its return
value becomes `result`. -/
def Outcome.and_then (o : Outcome) (call : Option Outcome) : Option Outcome :=
  if o.result then call.map (fun r => ⟨r.result, o.cerr ++ r.cerr⟩) else some o

/-- A verification function returns `true`. -/
def returnsTrue (r : Option Outcome) : Prop :=
  r.map Outcome.result = some true

instance (r : Option Outcome) : Decidable (returnsTrue r) := by
  unfold returnsTrue; infer_instance

/-! ## Static data of the use case -/

/-- The spatial dimension, `enum { SpatialDim = 3 }`. -/
def SpatialDim : Nat := 3

/-- The number of node ids of the use case, `enum { node_count = 66 }`. -/
def node_count : Nat := 66

/-- The number of hexahedral elements, `enum { number_hex = 2 }`. -/
def number_hex : Nat := 2

/-- The number of wedge elements, `enum { number_wedge = 3 }`. -/
def number_wedge : Nat := 3

/-- The table `node_coord_data[ node_count ][ SpatialDim ]`, over exact
rationals. -/
def node_coord_data : List (List ℚ) := [
  [0, 0, 0], [0, 0, -1], [0, 0, -2],
  [1, 0, 0], [1, 0, -1], [1, 0, -2],
  [2, 0, 0], [2, 0, -1], [2, 0, -2],
  [3, 0, 0], [3, 0, -1], [3, 0, -2],
  [4, 0, 0], [4, 0, -1], [4, 0, -2],

  [0, 1, 0], [0, 1, -1], [0, 1, -2],
  [1, 1, 0], [1, 1, -1], [1, 1, -2],
  [2, 1, 0], [2, 1, -1], [2, 1, -2],
  [3, 1, 0], [3, 1, -1], [3, 1, -2],
  [4, 1, 0], [4, 1, -1], [4, 1, -2],

  [0, 2, 0], [0, 2, -1], [0, 2, -2],
  [1, 2, 0], [1, 2, -1], [1, 2, -2],
  [2, 2, 0], [2, 2, -1], [2, 2, -2],
  [3, 2, 0], [3, 2, -1], [3, 2, -2],
  [4, 2, 0], [4, 2, -1], [4, 2, -2],

  [1/2, 3, 0], [1/2, 3, -1], [1/2, 3, -2],
  [3/2, 3, 0], [3/2, 3, -1], [3/2, 3, -2],
  [5/2, 3, 0], [5/2, 3, -1], [5/2, 3, -2],
  [7/2, 3, 0], [7/2, 3, -1], [7/2, 3, -2],

  [1, 4, 0], [1, 4, -1], [1, 4, -2],
  [2, 4, 0], [2, 4, -1], [2, 4, -2],
  [3, 4, 0], [3, 4, -1], [3, 4, -2]]

/-- The table `wedge_node_ids[3][ shards::Wedge<18>::node_count ]`. -/
def wedge_node_ids : List (List EntityId) := [
  [33, 39, 60, 31, 37, 58,
   36, 51, 48, 32, 38, 59, 34, 49, 46,
   35, 50, 47],
  [39, 45, 66, 37, 43, 64,
   42, 57, 54, 38, 44, 65, 40, 55, 52,
   41, 56, 53],
  [66, 60, 39, 64, 58, 37,
   63, 51, 54, 65, 59, 38, 61, 49, 52,
   62, 50, 53]]

/-- The table `hex_node_ids[2][ shards::Hexahedron<27>::node_count ]`. -/
def hex_node_ids : List (List EntityId) := [
  [1, 7, 9, 3, 31, 37, 39, 33,
   4, 8, 6, 2, 16, 22, 24, 18, 34, 38, 36, 32,
   20, 5, 35, 17, 23, 19, 21],
  [7, 13, 15, 9, 37, 43, 45, 39,
   10, 14, 12, 8, 22, 28, 30, 24, 40, 44, 42, 38,
   26, 11, 41, 23, 29, 25, 27]]

/-- Modelled from the spec: the face node maps of the Shards hexahedron
topologies (`Shards_BasicTopologies.hpp` is not part of the sources at hand),
each row listing the four vertices, the four mid-edge nodes and the mid-face
node of one face. Side 0 of `Hexahedron<20>` is `(0,1,5,4,8,13,16,12)`. -/
def HexahedronFaceNodeMap : List (List Nat) := [
  [0, 1, 5, 4, 8, 13, 16, 12, 25],
  [1, 2, 6, 5, 9, 14, 17, 13, 24],
  [2, 3, 7, 6, 10, 15, 18, 14, 26],
  [0, 4, 7, 3, 12, 19, 15, 11, 23],
  [0, 3, 2, 1, 11, 10, 9, 8, 21],
  [4, 5, 6, 7, 16, 17, 18, 19, 22]]

/-- Modelled from the spec: the face node maps of the Shards wedge topologies
(`Shards_BasicTopologies.hpp` is not part of the sources at hand): three
quadrilateral faces, then two triangular faces. Side 4 of `Wedge<15>` is
`(3,4,5,12,13,14)`. -/
def WedgeFaceNodeMap : List (List Nat) := [
  [0, 1, 4, 3, 6, 10, 12, 9, 15],
  [1, 2, 5, 4, 7, 11, 13, 10, 16],
  [0, 3, 5, 2, 9, 14, 11, 8, 17],
  [0, 2, 1, 8, 7, 6],
  [3, 4, 5, 12, 13, 14]]

/-- Modelled from the spec: the topology `shards::Hexahedron<8>` (8 vertices,
12 edges, 6 four-node faces). -/
def Hexahedron8 : CellTopologyData :=
  { dimension := 3, node_count := 8, vertex_count := 8, edge_count := 12,
    face_count := 6,
    side := HexahedronFaceNodeMap.map (fun m => ⟨4, m.take 4⟩) }

/-- Modelled from the spec: the topology `shards::Hexahedron<20>` (the 8
vertices and 12 mid-edge nodes; 6 eight-node faces). -/
def Hexahedron20 : CellTopologyData :=
  { dimension := 3, node_count := 20, vertex_count := 8, edge_count := 12,
    face_count := 6,
    side := HexahedronFaceNodeMap.map (fun m => ⟨8, m.take 8⟩) }

/-- Modelled from the spec: the topology `shards::Wedge<6>` (6 vertices, 9
edges, 3 four-node and 2 three-node faces). -/
def Wedge6 : CellTopologyData :=
  { dimension := 3, node_count := 6, vertex_count := 6, edge_count := 9,
    face_count := 5,
    side := WedgeFaceNodeMap.map
      (fun m => if m.length = 9 then ⟨4, m.take 4⟩ else ⟨3, m.take 3⟩) }

/-- Modelled from the spec: the topology `shards::Wedge<15>` (the 6 vertices
and 9 mid-edge nodes; 3 eight-node and 2 six-node faces). -/
def Wedge15 : CellTopologyData :=
  { dimension := 3, node_count := 15, vertex_count := 6, edge_count := 9,
    face_count := 5,
    side := WedgeFaceNodeMap.map
      (fun m => if m.length = 9 then ⟨8, m.take 8⟩ else ⟨6, m.take 6⟩) }

/-- The part `block_1` of hexahedral elements. -/
def block_hex20 : Part := "block_1"

/-- The part `block_2` of wedge elements. -/
def block_wedge15 : Part := "block_2"

/-- The part `vertex_nodes`. -/
def part_vertex_nodes : Part := "vertex_nodes"

/-- The part `sideset_1` of faces. -/
def side_part : Part := "sideset_1"

/-! ## Selectors -/

/-- Modelled from the spec: a selector is a boolean expression over parts
(`Selector.hpp` is not part of the sources at hand). -/
inductive Selector where
  | part (p : Part)
  | and (a b : Selector)
  | or (a b : Selector)
  | not (a : Selector)

/-- Modelled from the spec: whether a selector matches a part signature. -/
def Selector.matchesSignature : Selector → List Part → Bool
  | .part p, sig => sig.contains p
  | .and a b, sig => a.matchesSignature sig && b.matchesSignature sig
  | .or a b, sig => a.matchesSignature sig || b.matchesSignature sig
  | .not a, sig => !a.matchesSignature sig

/-- Modelled from the spec: `get_selected_entities( selector , buckets ,
entities )` keeps the buckets the selector matches and flattens their members,
in bucket order then in-bucket order (`GetEntities.hpp` is not part of the
sources at hand). -/
def get_selected_entities (selector : Selector) (bucket_vector : List Bucket) :
    List Entity :=
  (bucket_vector.filter (fun b => selector.matchesSignature b.supersets)).flatMap
    (fun b => b.entities)

/-! ## Verification functions -/

/-- The body of the node loop of `verify_elem_node_coord_4` at index `j`. -/
def verify_elem_node_coord_4_body (rel : List Entity) (elem_data : List Ptr)
    (node_coord : VectorFieldType) (j : Nat) (result : Outcome) :
    Option Outcome :=
  match rel[j]? with
  | none => none
  | some node =>
    let node_coord_array := node_coord node
    let n1 := node_coord_array.dimension0
    let result := result.check (n1 != SpatialDim) .error
    let result := result.check (node_coord_array.size != SpatialDim) .error
    let node_data := node_coord_array.contiguous_data
    match elem_data[j]? with
    | none => none
    | some p => some (result.check (p != node_data) .error)

/-- The function `verify_elem_node_coord_4( elem , elem_node_coord ,
node_coord , node_count )`. -/
def verify_elem_node_coord_4 (elem : Entity)
    (elem_node_coord : ElementNodePointerFieldType)
    (node_coord : VectorFieldType) (node_count : Nat) : Option Outcome :=
  let result := Outcome.start
  let rel := elem.relations_Node
  let result := result.check (rel.length != node_count) .error
  let elem_node_array := elem_node_coord elem
  let n1 := elem_node_array.dimension0
  let result := result.check (n1 != node_count) .error
  let result := result.check (elem_node_array.size != node_count) .error
  let elem_data := elem_node_array.contiguous_data
  forEach (verify_elem_node_coord_4_body rel elem_data node_coord)
    (List.range node_count) result

/-- The function `verify_elem_node_coord_by_part_4( part , bucket_vector ,
elem_node_coord , node_coord , node_count )`. -/
def verify_elem_node_coord_by_part_4 (part : Part) (bucket_vector : List Bucket)
    (elem_node_coord : ElementNodePointerFieldType)
    (node_coord : VectorFieldType) (node_count : Nat) : Option Outcome :=
  let selector := Selector.part part
  let entities := get_selected_entities selector bucket_vector
  forEach
    (fun entity result =>
      result.and_then
        (verify_elem_node_coord_4 entity elem_node_coord node_coord node_count))
    entities Outcome.start

/-- The lookup `field_data( field , bucket.begin() )`: the field resolved at the
first entity of the bucket; a bucket without entities has no first entity, and
the lookup is a fault. -/
def field_data_begin (field : Entity → EntityArray) (bucket : Bucket) :
    Option Ptr :=
  bucket.entities.head?.map (field_data field)

/-- The body of the bucket loop of `verify_boundary_field_data`; the state is
`result` with the diagnostics, and `num_side_nodes`, an `unsigned` whose
addition `num_side_nodes += bucket.size()` wraps modulo `2^32`. -/
def verify_boundary_field_data_body (side_part : Part)
    (boundary_field : VectorFieldType) (bucket : Bucket)
    (state : Outcome × Nat) : Option (Outcome × Nat) :=
  match field_data_begin boundary_field bucket with
  | none => none
  | some data =>
    if has_superset bucket side_part then
      some (state.1.check (data == NULL) .data_is_null,
            (state.2 + bucket.entities.length) % 2 ^ 32)
    else
      some (state.1.check (data != NULL) .data_not_null, state.2)

/-- The function `verify_boundary_field_data( mesh , side_part ,
boundary_field )`. -/
def verify_boundary_field_data (mesh : BulkData) (side_part : Part)
    (boundary_field : VectorFieldType) : Option Outcome :=
  let result := Outcome.start
  let num_side_nodes := 0
  let buckets := mesh.buckets .Node
  (forEach (verify_boundary_field_data_body side_part boundary_field) buckets
      (result, num_side_nodes)).map
    (fun state => state.1.check (state.2 != 20) (.num_side_nodes state.2))

/-- The body of the node loop of `verify_pressure_velocity_stencil` at index
`j`. -/
def verify_pressure_velocity_stencil_node (Traits_Linear : CellTopologyData)
    (linear_node_part : Part) (pressure : ScalarFieldType)
    (velocity : VectorFieldType) (rel : List Entity) (j : Nat)
    (result : Outcome) : Option Outcome :=
  match rel[j]? with
  | none => none
  | some node =>
    let node_parts := node.bucket_supersets
    let p := field_data pressure node
    let v := field_data velocity node
    let result :=
      if j < Traits_Linear.node_count then
        (result.check (!contain node_parts linear_node_part) .error).check
          (p == NULL) .error
      else
        (result.check (contain node_parts linear_node_part) .error).check
          (p != NULL) .error
    some (result.check (v == NULL) .error)

/-- The body of the element loop of `verify_pressure_velocity_stencil`. -/
def verify_pressure_velocity_stencil_elem (Traits_Full Traits_Linear : CellTopologyData)
    (linear_node_part : Part) (pressure : ScalarFieldType)
    (velocity : VectorFieldType) (elem : Entity) (result : Outcome) :
    Option Outcome :=
  let rel := elem.relations_Node
  let result := result.check (rel.length != Traits_Full.node_count) .error
  forEach
    (verify_pressure_velocity_stencil_node Traits_Linear linear_node_part
      pressure velocity rel)
    (List.range Traits_Full.node_count) result

/-- The body of the bucket loop of `verify_pressure_velocity_stencil`. -/
def verify_pressure_velocity_stencil_bucket (Traits_Full Traits_Linear : CellTopologyData)
    (element_part linear_node_part : Part) (pressure : ScalarFieldType)
    (velocity : VectorFieldType) (bucket : Bucket) (result : Outcome) :
    Option Outcome :=
  if has_superset bucket element_part then
    forEach
      (verify_pressure_velocity_stencil_elem Traits_Full Traits_Linear
        linear_node_part pressure velocity)
      bucket.entities result
  else
    some result

/-- The function `verify_pressure_velocity_stencil< Traits_Full ,
Traits_Linear >( M , element_part , linear_node_part , pressure , velocity )`. -/
def verify_pressure_velocity_stencil (Traits_Full Traits_Linear : CellTopologyData)
    (M : BulkData) (element_part linear_node_part : Part)
    (pressure : ScalarFieldType) (velocity : VectorFieldType) :
    Option Outcome :=
  let result := Outcome.start
  let result := result.check (Traits_Full.dimension != Traits_Linear.dimension)
    .dimension_differs
  let result := result.check
    (Traits_Full.vertex_count != Traits_Linear.vertex_count)
    .vertex_count_differs
  let result := result.check (Traits_Full.edge_count != Traits_Linear.edge_count)
    .edge_count_differs
  let result := result.check (Traits_Full.face_count != Traits_Linear.face_count)
    .face_count_differs
  let buckets := M.buckets .Element
  forEach
    (verify_pressure_velocity_stencil_bucket Traits_Full Traits_Linear
      element_part linear_node_part pressure velocity)
    buckets result

/-- The body of the loop of `verify_elem_side_node` at index `i`. -/
def verify_elem_side_node_body (elem_nodes : List EntityId)
    (side_node_map : List Nat) (rel : List Entity) (i : Nat)
    (result : Outcome) : Option Outcome :=
  match side_node_map[i]? with
  | none => none
  | some k =>
    match elem_nodes[k]? with
    | none => none
    | some id =>
      match rel[i]? with
      | none => none
      | some node => some (result.check (id != node.identifier) .error)

/-- The function `verify_elem_side_node< ElemTraits >( elem_nodes , local_side ,
side )`. -/
def verify_elem_side_node (ElemTraits : CellTopologyData)
    (elem_nodes : List EntityId) (local_side : Nat) (side : Entity) :
    Option Outcome :=
  let result := Outcome.start
  let elem_top := ElemTraits
  match elem_top.side[local_side]? with
  | none => none
  | some sd =>
    let side_top_node_count := sd.node_count
    let side_node_map := sd.node
    let rel := side.relations_Node
    forEach (verify_elem_side_node_body elem_nodes side_node_map rel)
      (List.range side_top_node_count) result

/-- The call `verify_elem_side_node< ElemTraits >( table[i] , local_side ,
*entities[i] )` of the face loops of `verifyMesh`; a row or an entity that does
not exist is a fault. -/
def verify_elem_side_node_at (ElemTraits : CellTopologyData)
    (table : List (List EntityId)) (local_side : Nat) (entities : List Entity)
    (i : Nat) : Option Outcome :=
  match table[i]? with
  | none => none
  | some elem_nodes =>
    match entities[i]? with
    | none => none
    | some side => verify_elem_side_node ElemTraits elem_nodes local_side side

/-- The mesh of the use case as `verifyMesh` reads it: the bulk data and the
fields declared by `UseCase_4_MetaData`. -/
structure UseCase_4_Mesh where
  bulkData : BulkData
  coordinates_field : VectorFieldType
  velocity_field : VectorFieldType
  centroid_field : VectorFieldType
  temperature_field : ScalarFieldType
  pressure_field : ScalarFieldType
  boundary_field : VectorFieldType
  element_node_coordinates_field : ElementNodePointerFieldType

/-- The type of `centroid_algorithm_unit_test_dimensions< Traits >( bulk_data ,
centroid_field , elem_node_coord , block )`, whose definition
(`centroid_algorithm.hpp`) is not part of the sources at hand; `verifyMesh`
takes it as a parameter. -/
abbrev CentroidDimensionsTest :=
  CellTopologyData → BulkData → VectorFieldType → ElementNodePointerFieldType →
    Part → Option Outcome

/-- The function `verifyMesh( mesh )`. -/
def verifyMesh (centroid_algorithm_unit_test_dimensions : CentroidDimensionsTest)
    (mesh : UseCase_4_Mesh) : Option Outcome :=
  let result := Outcome.start
  let bulk_data := mesh.bulkData
  let element_buckets := bulk_data.buckets .Element
  let elem_node_coord := mesh.element_node_coordinates_field
  let node_coord := mesh.coordinates_field
  (result.and_then
    (verify_elem_node_coord_by_part_4 block_hex20 element_buckets
      elem_node_coord node_coord 20)).bind fun result =>
  let face_buckets := bulk_data.buckets .Face
  let hex_entities :=
    get_selected_entities (.and (.part block_hex20) (.part side_part)) face_buckets
  (forEach
    (fun i result =>
      result.and_then
        (verify_elem_side_node_at Hexahedron20 hex_node_ids 0 hex_entities i))
    (List.range hex_entities.length) result).bind fun result =>
  (result.and_then
    (verify_elem_node_coord_by_part_4 block_wedge15 element_buckets
      elem_node_coord node_coord 15)).bind fun result =>
  let wedge_entities :=
    get_selected_entities (.and (.part block_wedge15) (.part side_part))
      face_buckets
  (forEach
    (fun i result =>
      result.and_then
        (verify_elem_side_node_at Wedge15 wedge_node_ids 4 wedge_entities i))
    (List.range wedge_entities.length) result).bind fun result =>
  let centroid_field := mesh.centroid_field
  (result.and_then
    (centroid_algorithm_unit_test_dimensions Hexahedron20 bulk_data
      centroid_field elem_node_coord block_hex20)).bind fun result =>
  (result.and_then
    (centroid_algorithm_unit_test_dimensions Wedge15 bulk_data
      centroid_field elem_node_coord block_wedge15)).bind fun result =>
  let boundary_field := mesh.boundary_field
  (result.and_then
    (verify_boundary_field_data bulk_data side_part boundary_field)).bind
    fun result =>
  let pressure_field := mesh.pressure_field
  let velocity_field := mesh.velocity_field
  (result.and_then
    (verify_pressure_velocity_stencil Hexahedron20 Hexahedron8 bulk_data
      block_hex20 part_vertex_nodes pressure_field velocity_field)).bind
    fun result =>
  (result.and_then
    (verify_pressure_velocity_stencil Wedge15 Wedge6 bulk_data
      block_wedge15 part_vertex_nodes pressure_field velocity_field)).bind
    fun result =>
  some result

/-! ## The component checks of a verification pass, each on its own -/

/-- The component checks of `verifyMesh`, in the order of the source, each run
on its own from a fresh `result`. -/
def componentChecks (centroid_algorithm_unit_test_dimensions : CentroidDimensionsTest)
    (mesh : UseCase_4_Mesh) : List (Option Outcome) :=
  let element_buckets := mesh.bulkData.buckets .Element
  let face_buckets := mesh.bulkData.buckets .Face
  let hex_entities :=
    get_selected_entities (.and (.part block_hex20) (.part side_part)) face_buckets
  let wedge_entities :=
    get_selected_entities (.and (.part block_wedge15) (.part side_part))
      face_buckets
  (get_selected_entities (.part block_hex20) element_buckets).map
      (fun e => verify_elem_node_coord_4 e mesh.element_node_coordinates_field
        mesh.coordinates_field 20)
  ++ (List.range hex_entities.length).map
      (fun i => verify_elem_side_node_at Hexahedron20 hex_node_ids 0 hex_entities i)
  ++ (get_selected_entities (.part block_wedge15) element_buckets).map
      (fun e => verify_elem_node_coord_4 e mesh.element_node_coordinates_field
        mesh.coordinates_field 15)
  ++ (List.range wedge_entities.length).map
      (fun i => verify_elem_side_node_at Wedge15 wedge_node_ids 4 wedge_entities i)
  ++ [centroid_algorithm_unit_test_dimensions Hexahedron20 mesh.bulkData
        mesh.centroid_field mesh.element_node_coordinates_field block_hex20,
      centroid_algorithm_unit_test_dimensions Wedge15 mesh.bulkData
        mesh.centroid_field mesh.element_node_coordinates_field block_wedge15,
      verify_boundary_field_data mesh.bulkData side_part mesh.boundary_field,
      verify_pressure_velocity_stencil Hexahedron20 Hexahedron8 mesh.bulkData
        block_hex20 part_vertex_nodes mesh.pressure_field mesh.velocity_field,
      verify_pressure_velocity_stencil Wedge15 Wedge6 mesh.bulkData
        block_wedge15 part_vertex_nodes mesh.pressure_field mesh.velocity_field]

/-- The diagnostics a list of checks writes when every check is run on its
own, concatenated in order. -/
def diagnosticsOfEach (checks : List (Option Outcome)) : List Diagnostic :=
  checks.flatMap (fun c => match c with
    | some o => o.cerr
    | none => [])

/-- A chain of `result = result && check` statements over a list of checks. -/
def runChecks (checks : List (Option Outcome)) (result : Outcome) :
    Option Outcome :=
  forEach (fun c r => r.and_then c) checks result

/-! ## Population of the mesh -/

/-- An entity as `populate` declares it: its identifier, the parts it is put
in, and the identifiers of its related nodes in relation order. -/
structure Declared where
  identifier : EntityId
  parts : List Part
  nodes : List EntityId
deriving DecidableEq, Repr

/-- The values of a lookup at the given keys, in order; a failed lookup fails
the whole. -/
def collect {α β : Type} (f : α → Option β) : List α → Option (List β)
  | [] => some []
  | x :: xs =>
    match f x with
    | none => none
    | some y => (collect f xs).map (fun ys => y :: ys)

/-- The entries of a table at the given indices, in order; an index outside the
table is a fault. -/
def gather {α : Type} (table : List α) (indices : List Nat) : Option (List α) :=
  collect (fun k => table[k]?) indices

/-- Modelled from the spec: `declare_element( bulkData , block , elem_id ,
node_ids )` (`TopologyHelpers.hpp` is not part of the sources at hand) declares
an element of the block whose node relations are, in order, the first
`node_count` identifiers of `node_ids`, where the topology is the one bound to
the block by `set_cell_topology`. -/
def declare_element (top : CellTopologyData) (block : Part) (elem_id : EntityId)
    (node_ids : List EntityId) : Declared :=
  ⟨elem_id, [block], node_ids.take top.node_count⟩

/-- Modelled from the spec: `declare_element_side( bulkData , face_id , elem ,
local_side )` (`TopologyHelpers.hpp` is not part of the sources at hand) looks
up the side node map of the element topology for the local side, gathers the
element's related nodes at those indices in that order, and declares a side
entity related to them. -/
def declare_element_side (top : CellTopologyData) (face_id : EntityId)
    (elem : Declared) (local_side : Nat) : Option Declared :=
  match top.side[local_side]? with
  | none => none
  | some sd =>
    (gather elem.nodes (sd.node.take sd.node_count)).map
      (fun ns => ⟨face_id, [], ns⟩)

/-- The call `bulkData.change_entity_parts( entity , add )`. -/
def change_entity_parts (entity : Declared) (add : List Part) : Declared :=
  { entity with parts := entity.parts ++ add }

/-- The mesh as `populate` builds it: the declared elements and faces, and the
coordinates written on the nodes, keyed by node identifier. -/
structure Populated where
  elements : List Declared
  faces : List Declared
  coordinates : List (EntityId × List ℚ)
deriving DecidableEq, Repr

/-- The state of the element loops of `populate`: the running `elem_id` and
`face_id`, and the entities declared so far. -/
structure PopulateState where
  elem_id : EntityId
  face_id : EntityId
  elements : List Declared
  faces : List Declared

/-- The body of an element loop of `populate` at index `i`, followed by the
increments `++elem_id , ++face_id`. -/
def populate_body (top : CellTopologyData) (block : Part)
    (table : List (List EntityId)) (local_side : Nat) (side_add : List Part)
    (i : Nat) (st : PopulateState) : Option PopulateState :=
  match table[i]? with
  | none => none
  | some row =>
    let elem := declare_element top block st.elem_id row
    match declare_element_side top st.face_id elem local_side with
    | none => none
    | some face =>
      let face := change_entity_parts face side_add
      some ⟨st.elem_id + 1, st.face_id + 1, st.elements ++ [elem],
        st.faces ++ [face]⟩

/-- The lookup `bulkData.get_entity( Node , id )` after the element loops: a
node exists exactly when some declared element is related to it. -/
def node_exists (elements : List Declared) (id : EntityId) : Bool :=
  elements.any (fun e => e.nodes.contains id)

/-- The body of the coordinate loop of `populate` at index `i`. -/
def populate_coord_body (elements : List Declared) (i : Nat)
    (coordinates : List (EntityId × List ℚ)) :
    Option (List (EntityId × List ℚ)) :=
  if node_exists elements (i + 1) then
    match node_coord_data[i]? with
    | none => none
    | some row => some (coordinates ++ [(i + 1, row.take SpatialDim)])
  else
    some coordinates

/-- The function `populate( mesh )`. -/
def populate : Option Populated :=
  let side_add := [side_part]
  (forEach (populate_body Hexahedron20 block_hex20 hex_node_ids 0 side_add)
    (List.range number_hex) ⟨1, 1, [], []⟩).bind fun st =>
  (forEach (populate_body Wedge15 block_wedge15 wedge_node_ids 4 side_add)
    (List.range number_wedge) st).bind fun st =>
  (forEach (populate_coord_body st.elements) (List.range node_count) []).map
    fun coordinates => ⟨st.elements, st.faces, coordinates⟩

/-- The node identifiers of the faces that are members of a part, without
repetition. -/
def side_part_nodes (m : Populated) (part : Part) : Finset EntityId :=
  ((m.faces.filter (fun f => f.parts.contains part)).flatMap
    (fun f => f.nodes)).toFinset

/-- The coordinates `populate` wrote on the node with the given identifier. -/
def node_coordinates (m : Populated) (id : EntityId) : Option (List ℚ) :=
  (m.coordinates.find? (fun c => c.1 == id)).map (fun c => c.2)

/-- The component-wise arithmetic mean of a list of points. -/
def arithmetic_mean (points : List (List ℚ)) : List ℚ :=
  (List.range SpatialDim).map
    (fun d => (points.map (fun p => p.getD d 0)).sum / points.length)

/-- The coordinates of the first `count` related nodes of an element. -/
def element_node_coordinates (m : Populated) (elem : Declared) (count : Nat) :
    Option (List (List ℚ)) :=
  (gather elem.nodes (List.range count)).bind (collect (node_coordinates m))

/-- Modelled from the spec: `centroid_algorithm< Traits >`
(`centroid_algorithm.hpp` is not part of the sources at hand) resolves the
element-node coordinate field of an element to the coordinates of its
`node_count` related nodes and averages them component-wise. -/
def centroid_algorithm (top : CellTopologyData) (m : Populated)
    (elem : Declared) : Option (List ℚ) :=
  (element_node_coordinates m elem top.node_count).map arithmetic_mean

/-- The field data of a bucket is present (not absent). -/
def has_field_data (field : Entity → EntityArray) (bucket : Bucket) : Bool :=
  match field_data_begin field bucket with
  | some data => data != NULL
  | none => false

/-- What `verify_pressure_velocity_stencil` requires of the node related to an
element at index `j`. -/
def stencilNodeOk (Traits_Linear : CellTopologyData) (linear_node_part : Part)
    (pressure : ScalarFieldType) (velocity : VectorFieldType)
    (rel : List Entity) (j : Nat) : Prop :=
  ∃ node, rel[j]? = some node ∧
    (j < Traits_Linear.node_count →
      linear_node_part ∈ node.bucket_supersets ∧ field_data pressure node ≠ NULL) ∧
    (Traits_Linear.node_count ≤ j →
      linear_node_part ∉ node.bucket_supersets ∧ field_data pressure node = NULL) ∧
    field_data velocity node ≠ NULL

/-! ## A concrete mesh -/

/-- The mesh `populate` builds, spelled out. -/
def populated : Populated :=
 ⟨[⟨1, ["block_1"], [1, 7, 9, 3, 31, 37, 39, 33, 4, 8, 6, 2, 16, 22, 24, 18, 34, 38, 36, 32]⟩,
  ⟨2, ["block_1"], [7, 13, 15, 9, 37, 43, 45, 39, 10, 14, 12, 8, 22, 28, 30, 24, 40, 44, 42, 38]⟩,
  ⟨3, ["block_2"], [33, 39, 60, 31, 37, 58, 36, 51, 48, 32, 38, 59, 34, 49, 46]⟩,
  ⟨4, ["block_2"], [39, 45, 66, 37, 43, 64, 42, 57, 54, 38, 44, 65, 40, 55, 52]⟩,
  ⟨5, ["block_2"], [66, 60, 39, 64, 58, 37, 63, 51, 54, 65, 59, 38, 61, 49, 52]⟩],
 [⟨1, ["sideset_1"], [1, 7, 37, 31, 4, 22, 34, 16]⟩,
  ⟨2, ["sideset_1"], [7, 13, 43, 37, 10, 28, 40, 22]⟩,
  ⟨3, ["sideset_1"], [31, 37, 58, 34, 49, 46]⟩,
  ⟨4, ["sideset_1"], [37, 43, 64, 40, 55, 52]⟩,
  ⟨5, ["sideset_1"], [64, 58, 37, 61, 49, 52]⟩],
 [(1, [0, 0, 0]), (2, [0, 0, -1]), (3, [0, 0, -2]), (4, [1, 0, 0]), (6, [1, 0, -2]), (7, [2, 0, 0]), (8, [2, 0, -1]), (9, [2, 0, -2]), (10, [3, 0, 0]), (12, [3, 0, -2]), (13, [4, 0, 0]), (14, [4, 0, -1]), (15, [4, 0, -2]), (16, [0, 1, 0]), (18, [0, 1, -2]), (22, [2, 1, 0]), (24, [2, 1, -2]), (28, [4, 1, 0]), (30, [4, 1, -2]), (31, [0, 2, 0]), (32, [0, 2, -1]), (33, [0, 2, -2]), (34, [1, 2, 0]), (36, [1, 2, -2]), (37, [2, 2, 0]), (38, [2, 2, -1]), (39, [2, 2, -2]), (40, [3, 2, 0]), (42, [3, 2, -2]), (43, [4, 2, 0]), (44, [4, 2, -1]), (45, [4, 2, -2]), (46, [1/2, 3, 0]), (48, [1/2, 3, -2]), (49, [3/2, 3, 0]), (51, [3/2, 3, -2]), (52, [5/2, 3, 0]), (54, [5/2, 3, -2]), (55, [7/2, 3, 0]), (57, [7/2, 3, -2]), (58, [1, 4, 0]), (59, [1, 4, -1]), (60, [1, 4, -2]), (61, [2, 4, 0]), (63, [2, 4, -2]), (64, [3, 4, 0]), (65, [3, 4, -1]), (66, [3, 4, -2])]⟩

/-- The topology whose node count bounds the vertex positions of the elements
of a block: the part relations of `UseCase_4_MetaData` put the nodes of a
`block_1` element selected by `element_node_stencil< Hexahedron<8> >`, and the
nodes of a `block_2` element selected by `element_node_stencil< Wedge<6> >`,
in the vertex part. -/
def part_relation_stencil (block : Part) : Option CellTopologyData :=
  if block = block_hex20 then some Hexahedron8
  else if block = block_wedge15 then some Wedge6
  else none

/-- The number of leading node positions of an element that are vertex
positions, by the part relations of its parts. -/
def vertex_position_count (e : Declared) : Nat :=
  match e.parts.filterMap part_relation_stencil with
  | [] => 0
  | top :: _ => top.node_count

/-- The node identifiers at the vertex positions of an element. -/
def vertex_position_nodes (e : Declared) : List EntityId :=
  e.nodes.take (vertex_position_count e)

/-- The node identifiers at the non-vertex positions of an element. -/
def non_vertex_position_nodes (e : Declared) : List EntityId :=
  e.nodes.drop (vertex_position_count e)

/-- An example node entity for a populated mesh: it is in the vertex part when
it sits at a vertex position of some element, and in the side part when some
face of the side part is related to it. -/
def example_node (m : Populated) (id : EntityId) : Entity :=
  .mk id
    ((if m.elements.any (fun e => (vertex_position_nodes e).contains id)
        then [part_vertex_nodes] else [])
      ++ (if m.faces.any (fun f => f.parts.contains side_part && f.nodes.contains id)
        then [side_part] else []))
    []

/-- An example element or face entity for a populated mesh, related to its
nodes in order. -/
def example_entity (m : Populated) (parts : List Part) (d : Declared) : Entity :=
  .mk d.identifier parts (d.nodes.map (example_node m))

/-- The identifiers of the nodes of a populated mesh, in increasing order. -/
def example_node_ids (m : Populated) : List EntityId :=
  (List.range (node_count + 1)).filter (node_exists m.elements)

/-- An example Node bucket: the nodes with exactly the given signature. -/
def example_node_bucket (m : Populated) (signature : List Part) : Bucket :=
  ⟨signature,
    ((example_node_ids m).map (example_node m)).filter
      (fun n => n.bucket_supersets == signature)⟩

/-- An example bulk data for a populated mesh: one Element bucket and one Face
bucket per block, and one Node bucket per part signature. -/
def example_bulk (m : Populated) : BulkData :=
  ⟨fun kind => match kind with
    | .Element =>
      [⟨[block_hex20],
          (m.elements.filter (fun e => e.parts.contains block_hex20)).map
            (example_entity m [block_hex20])⟩,
        ⟨[block_wedge15],
          (m.elements.filter (fun e => e.parts.contains block_wedge15)).map
            (example_entity m [block_wedge15])⟩]
    | .Face =>
      [⟨[block_hex20, side_part],
          ((m.faces.zip m.elements).filter
              (fun fe => fe.2.parts.contains block_hex20)).map
            (fun fe => example_entity m [block_hex20, side_part] fe.1)⟩,
        ⟨[block_wedge15, side_part],
          ((m.faces.zip m.elements).filter
              (fun fe => fe.2.parts.contains block_wedge15)).map
            (fun fe => example_entity m [block_wedge15, side_part] fe.1)⟩]
    | .Node =>
      [example_node_bucket m [], example_node_bucket m [part_vertex_nodes],
        example_node_bucket m [side_part],
        example_node_bucket m [part_vertex_nodes, side_part]]
    | .Edge => []⟩

/-- An example field of three doubles on every entity, stored at an address
fixed by the identifier. -/
def example_vector_field (base : Ptr) : VectorFieldType :=
  fun e => ⟨3, 3, base + 24 * e.identifier⟩

/-- An example field restricted to a part: storage of the given length on the
entities whose bucket has the part as a superset, absent on the others. -/
def example_restricted_field (part : Part) (length : Nat) (base : Ptr) :
    Entity → EntityArray :=
  fun e =>
    if contain e.bucket_supersets part then ⟨length, length, base + 24 * e.identifier⟩
    else ⟨0, 0, NULL⟩

/-- An example element-node pointer field wired to a coordinate field: on each
entity, the addresses of the coordinate storage of its related nodes. -/
def example_element_node_field (node_coord : VectorFieldType) :
    ElementNodePointerFieldType :=
  fun e =>
    ⟨e.relations_Node.length, e.relations_Node.length,
      e.relations_Node.map (fun n => (node_coord n).contiguous_data)⟩

/-- An example mesh: the populated mesh with every field wired as declared. -/
def example_mesh : UseCase_4_Mesh :=
  { bulkData := example_bulk populated
    coordinates_field := example_vector_field 1000
    velocity_field := example_vector_field 3000
    centroid_field := example_vector_field 5000
    temperature_field := example_restricted_field part_vertex_nodes 1 7000
    pressure_field := example_restricted_field part_vertex_nodes 1 9000
    boundary_field := example_restricted_field side_part 3 11000
    element_node_coordinates_field :=
      example_element_node_field (example_vector_field 1000) }

/-- A centroid dimension test that passes without diagnostics. -/
def example_centroid_test : CentroidDimensionsTest :=
  fun _ _ _ _ _ => some Outcome.start

/-- An element-node pointer field with one defect: on element 1 the first
pointer is null. -/
def defective_element_node_field (node_coord : VectorFieldType) :
    ElementNodePointerFieldType :=
  fun e =>
    if e.identifier = 1 then
      ⟨e.relations_Node.length, e.relations_Node.length,
        NULL :: (e.relations_Node.drop 1).map
          (fun n => (node_coord n).contiguous_data)⟩
    else example_element_node_field node_coord e

/-- A mesh with two independent defects: the first pointer of the element-node
field of element 1 is null, and the boundary field has no storage anywhere. -/
def defective_mesh : UseCase_4_Mesh :=
  { example_mesh with
    boundary_field := fun _ => ⟨0, 0, NULL⟩
    element_node_coordinates_field :=
      defective_element_node_field (example_vector_field 1000) }

/-- The first hexahedral element of the example mesh. -/
def example_hex_element : Entity :=
  example_entity populated [block_hex20]
    ⟨1, [block_hex20],
      [1, 7, 9, 3, 31, 37, 39, 33, 4, 8, 6, 2, 16, 22, 24, 18, 34, 38, 36, 32]⟩

/-- The face on side 0 of the first hexahedral element of the example mesh. -/
def example_hex_face : Entity :=
  example_entity populated [block_hex20, side_part]
    ⟨1, [side_part], [1, 7, 37, 31, 4, 22, 34, 16]⟩

/-- A number of nodes one `unsigned` wrap-around above 20. -/
def wrapped_node_count : Nat := 2 ^ 32 + 20

/-- A Node bucket of the side part holding `2^32 + 20` nodes, with identifiers
from 1 on. -/
def wrapping_bucket : Bucket :=
  ⟨[side_part],
    (List.range' 1 wrapped_node_count).map (fun id => Entity.mk id [side_part] [])⟩

/-- A bulk data whose only Node bucket is the side-part bucket of `2^32 + 20`
nodes. -/
def wrapping_bulk : BulkData :=
  ⟨fun kind => match kind with
    | .Node => [wrapping_bucket]
    | _ => []⟩

/-- An element of `block_1` without node relations. -/
def element_without_nodes : Entity := .mk 1 [block_hex20] []

/-! ## General facts about the loops -/

theorem check_result (o : Outcome) (v : Bool) (msg : Diagnostic) :
    (o.check v msg).result = (o.result && !v) := by
  unfold Outcome.check
  cases v <;> simp

/-- A loop whose every iteration keeps `result` true exactly when it was true
and the iteration's condition holds ends with `result` true exactly when it
started true and the condition holds at every item. -/
theorem forEach_result_true {α σ : Type} (res : σ → Bool)
    (body : α → σ → Option σ) (P : α → Prop) (xs : List α)
    (h : ∀ x ∈ xs, ∀ s, ((body x s).map res = some true ↔ (res s = true ∧ P x))) :
    ∀ s, (forEach body xs s).map res = some true ↔
      (res s = true ∧ ∀ x ∈ xs, P x) := by
  induction xs with
  | nil => intro s; simp [forEach]
  | cons x xs ih =>
    intro s
    have hx := h x (List.mem_cons_self x xs) s
    have ih2 := ih (fun y hy => h y (List.mem_cons_of_mem x hy))
    cases hb : body x s with
    | none =>
      rw [hb] at hx
      simp only [forEach, hb, Option.bind, Option.map]
      constructor
      · intro hc; cases hc
      · intro hc
        exact absurd (hx.2 ⟨hc.1, hc.2 x (List.mem_cons_self x xs)⟩) (by simp)
    | some s1 =>
      rw [hb] at hx
      simp only [forEach, hb, Option.bind]
      rw [ih2 s1]
      simp only [Option.map, Option.some.injEq] at hx
      rw [hx]
      simp only [List.mem_cons, forall_eq_or_imp]
      tauto

theorem verify_elem_side_node_body_true (elem_nodes : List EntityId)
    (side_node_map : List Nat) (rel : List Entity) (i : Nat) (hi : i < rel.length)
    (s : Outcome) :
    (verify_elem_side_node_body elem_nodes side_node_map rel i s).map Outcome.result
        = some true ↔
      (s.result = true ∧
        (rel[i]?).map Entity.identifier
          = (side_node_map[i]?).bind (fun k => elem_nodes[k]?)) := by
  unfold verify_elem_side_node_body
  rw [List.getElem?_eq_getElem hi]
  cases hk : side_node_map[i]? with
  | none => simp
  | some k =>
    cases he : elem_nodes[k]? with
    | none => simp [he]
    | some id =>
      simp [he, check_result]
      intro _
      exact eq_comm

theorem verify_elem_node_coord_4_body_true (rel : List Entity)
    (elem_data : List Ptr) (node_coord : VectorFieldType) (j : Nat)
    (hj : j < rel.length) (s : Outcome) :
    (verify_elem_node_coord_4_body rel elem_data node_coord j s).map Outcome.result
        = some true ↔
      (s.result = true ∧
        ∃ node, rel[j]? = some node ∧ (node_coord node).dimension0 = 3 ∧
          (node_coord node).size = 3 ∧
          elem_data[j]? = some (node_coord node).contiguous_data) := by
  unfold verify_elem_node_coord_4_body
  rw [List.getElem?_eq_getElem hj]
  cases hd : elem_data[j]? with
  | none => simp
  | some p =>
    simp only [Option.map, check_result, SpatialDim, Option.some.injEq,
      exists_eq_left']
    simp
    tauto

theorem verify_pressure_velocity_stencil_node_true (Traits_Linear : CellTopologyData)
    (linear_node_part : Part) (pressure : ScalarFieldType)
    (velocity : VectorFieldType) (rel : List Entity) (j : Nat)
    (hj : j < rel.length) (s : Outcome) :
    (verify_pressure_velocity_stencil_node Traits_Linear linear_node_part
        pressure velocity rel j s).map Outcome.result = some true ↔
      (s.result = true ∧
        stencilNodeOk Traits_Linear linear_node_part pressure velocity rel j) := by
  unfold verify_pressure_velocity_stencil_node stencilNodeOk
  rw [List.getElem?_eq_getElem hj]
  by_cases hlin : j < Traits_Linear.node_count
  · have hnot : ¬ Traits_Linear.node_count ≤ j := Nat.not_le.mpr hlin
    simp [hlin, hnot, check_result, contain, and_assoc]
  · have hle : Traits_Linear.node_count ≤ j := Nat.le_of_not_lt hlin
    simp [hlin, hle, check_result, contain, and_assoc]

theorem verify_pressure_velocity_stencil_elem_true
    (Traits_Full Traits_Linear : CellTopologyData) (linear_node_part : Part)
    (pressure : ScalarFieldType) (velocity : VectorFieldType) (elem : Entity)
    (hrel : Traits_Full.node_count ≤ elem.relations_Node.length) (s : Outcome) :
    (verify_pressure_velocity_stencil_elem Traits_Full Traits_Linear
        linear_node_part pressure velocity elem s).map Outcome.result = some true ↔
      (s.result = true ∧
        (elem.relations_Node.length = Traits_Full.node_count ∧
          ∀ j, j < Traits_Full.node_count →
            stencilNodeOk Traits_Linear linear_node_part pressure velocity
              elem.relations_Node j)) := by
  unfold verify_pressure_velocity_stencil_elem
  simp only []
  rw [forEach_result_true Outcome.result _
    (fun j => stencilNodeOk Traits_Linear linear_node_part pressure velocity
              elem.relations_Node j)]
  · simp [check_result, and_assoc]
  · intro j hj s
    apply verify_pressure_velocity_stencil_node_true
    exact lt_of_lt_of_le (List.mem_range.mp hj) hrel

theorem verify_pressure_velocity_stencil_bucket_true
    (Traits_Full Traits_Linear : CellTopologyData)
    (element_part linear_node_part : Part)
    (pressure : ScalarFieldType) (velocity : VectorFieldType) (bucket : Bucket)
    (hrel : has_superset bucket element_part = true → ∀ e ∈ bucket.entities,
      Traits_Full.node_count ≤ e.relations_Node.length) (s : Outcome) :
    (verify_pressure_velocity_stencil_bucket Traits_Full Traits_Linear
        element_part linear_node_part pressure velocity bucket s).map
        Outcome.result = some true ↔
      (s.result = true ∧
        (has_superset bucket element_part = true → ∀ e ∈ bucket.entities,
          (e.relations_Node.length = Traits_Full.node_count ∧
            ∀ j, j < Traits_Full.node_count →
              stencilNodeOk Traits_Linear linear_node_part pressure velocity
                e.relations_Node j))) := by
  unfold verify_pressure_velocity_stencil_bucket
  by_cases hsup : has_superset bucket element_part = true
  · simp only [hsup, if_true, true_implies]
    rw [forEach_result_true Outcome.result _
      (fun e => e.relations_Node.length = Traits_Full.node_count ∧
            ∀ j, j < Traits_Full.node_count →
              stencilNodeOk Traits_Linear linear_node_part pressure velocity
                e.relations_Node j)]
    intro e he s
    exact verify_pressure_velocity_stencil_elem_true _ _ _ _ _ e (hrel hsup e he) s
  · simp [hsup]

theorem verify_boundary_field_data_body_true (side_part : Part)
    (boundary_field : VectorFieldType) (bucket : Bucket)
    (hne : bucket.entities ≠ []) (st : Outcome × Nat) :
    (verify_boundary_field_data_body side_part boundary_field bucket st).map
        (fun st => st.1.result) = some true ↔
      (st.1.result = true ∧
        (has_field_data boundary_field bucket = true ↔
          side_part ∈ bucket.supersets)) := by
  unfold verify_boundary_field_data_body has_field_data field_data_begin
  cases hents : bucket.entities with
  | nil => exact absurd hents hne
  | cons first rest =>
    by_cases hsup : has_superset bucket side_part = true
    · have hmem : side_part ∈ bucket.supersets := by
        simpa [has_superset] using hsup
      simp [hsup, hmem, check_result]
    · have hmem : side_part ∉ bucket.supersets := by
        simpa [has_superset] using hsup
      simp [hsup, hmem, check_result]

theorem verify_boundary_field_data_count (side_part : Part)
    (boundary_field : VectorFieldType) (buckets : List Bucket) :
    ∀ st st', st.2 < 2 ^ 32 →
      forEach (verify_boundary_field_data_body side_part boundary_field)
        buckets st = some st' →
      st'.2 = (st.2 +
        ((buckets.filter (fun b => has_superset b side_part)).map
          (fun b => b.entities.length)).sum) % 2 ^ 32 := by
  induction buckets with
  | nil =>
    intro st st' hlt h
    simp only [forEach, Option.some.injEq] at h
    rw [← h]
    simp only [List.filter_nil, List.map_nil, List.sum_nil, Nat.add_zero]
    exact (Nat.mod_eq_of_lt hlt).symm
  | cons b bs ih =>
    intro st st' hlt h
    simp only [forEach] at h
    cases hb : verify_boundary_field_data_body side_part boundary_field b st with
    | none => simp [hb] at h
    | some s1 =>
      rw [hb] at h
      simp only [Option.bind] at h
      unfold verify_boundary_field_data_body at hb
      cases hd : field_data_begin boundary_field b with
      | none => simp [hd] at hb
      | some data =>
        by_cases hsup : has_superset b side_part = true
        · simp [hd, hsup] at hb
          have hlt1 : s1.2 < 2 ^ 32 := by
            rw [← hb]
            exact Nat.mod_lt _ (by decide)
          rw [ih s1 st' hlt1 h, ← hb]
          simp [List.filter_cons, hsup, Nat.add_assoc]
        · simp [hd, hsup] at hb
          have hlt1 : s1.2 < 2 ^ 32 := by
            rw [← hb]
            exact hlt
          rw [ih s1 st' hlt1 h, ← hb]
          simp [List.filter_cons, hsup]

/-- With all Node buckets non-empty, `verify_boundary_field_data` returns true
exactly when the field data is present on exactly the side-part buckets and
the number of nodes in the buckets with field data is 20 modulo `2^32`. -/
theorem verify_boundary_field_data_mod_iff (mesh : BulkData) (side_part : Part)
    (boundary_field : VectorFieldType)
    (hne : ∀ b ∈ mesh.buckets .Node, b.entities ≠ []) :
    returnsTrue (verify_boundary_field_data mesh side_part boundary_field) ↔
      ((∀ b ∈ mesh.buckets .Node,
          (has_field_data boundary_field b = true ↔ side_part ∈ b.supersets)) ∧
        (((mesh.buckets .Node).filter
            (fun b => has_field_data boundary_field b)).map
          (fun b => b.entities.length)).sum % 2 ^ 32 = 20) := by
  have hres := forEach_result_true (fun st : Outcome × Nat => st.1.result)
    (verify_boundary_field_data_body side_part boundary_field)
    (fun b => has_field_data boundary_field b = true ↔ side_part ∈ b.supersets)
    (mesh.buckets .Node)
    (fun b hb st =>
      verify_boundary_field_data_body_true side_part boundary_field b (hne b hb) st)
    (Outcome.start, 0)
  have hfilter : (∀ b ∈ mesh.buckets .Node,
      (has_field_data boundary_field b = true ↔ side_part ∈ b.supersets)) →
      (mesh.buckets .Node).filter (fun b => has_field_data boundary_field b)
        = (mesh.buckets .Node).filter (fun b => has_superset b side_part) := by
    intro hall
    apply List.filter_congr
    intro b hb
    have h := hall b hb
    cases hf : has_field_data boundary_field b <;>
      cases hs : has_superset b side_part <;>
      simp_all [has_superset]
  unfold returnsTrue verify_boundary_field_data
  simp only []
  cases hrun : forEach (verify_boundary_field_data_body side_part boundary_field)
      (mesh.buckets .Node) (Outcome.start, 0) with
  | none =>
    rw [hrun] at hres
    simp only [Option.map]
    constructor
    · intro h; cases h
    · intro h
      exact absurd (hres.2 ⟨rfl, h.1⟩) (by simp)
  | some st' =>
    rw [hrun] at hres
    have hcount := verify_boundary_field_data_count side_part boundary_field
      (mesh.buckets .Node) _ _ (by decide) hrun
    simp only [Option.map, Option.some.injEq, Outcome.start, true_and] at hres
    simp only [Option.map, Option.some.injEq, check_result, Bool.and_eq_true,
      Bool.not_eq_true', bne_eq_false_iff_eq, hres, Nat.zero_add] at hcount ⊢
    constructor
    · rintro ⟨hall, h20⟩
      refine ⟨hall, ?_⟩
      rw [hfilter hall, ← hcount, h20]
    · rintro ⟨hall, h20⟩
      refine ⟨hall, ?_⟩
      rw [hcount, ← hfilter hall, h20]

/-! ## Facts about chains of `result = result && check` -/

theorem and_then_result (o : Outcome) (c : Option Outcome) :
    (o.and_then c).map Outcome.result = some true ↔
      (o.result = true ∧ returnsTrue c) := by
  unfold Outcome.and_then returnsTrue
  cases ho : o.result <;> cases c <;> simp [ho]

theorem runChecks_returnsTrue (cs : List (Option Outcome)) (o : Outcome) :
    returnsTrue (runChecks cs o) ↔ (o.result = true ∧ ∀ c ∈ cs, returnsTrue c) :=
  forEach_result_true Outcome.result (fun c r => r.and_then c)
    (fun c => returnsTrue c) cs (fun c _ s => and_then_result s c) o

theorem runChecks_isSome (cs : List (Option Outcome))
    (h : ∀ c ∈ cs, c.isSome = true) : ∀ o, (runChecks cs o).isSome = true := by
  induction cs with
  | nil => intro o; simp [runChecks, forEach]
  | cons c cs ih =>
    intro o
    have hc := h c (List.mem_cons_self c cs)
    have ih2 := ih (fun d hd => h d (List.mem_cons_of_mem c hd))
    cases c with
    | none => simp at hc
    | some r =>
      unfold runChecks at ih2 ⊢
      simp only [forEach, Outcome.and_then]
      cases o.result
      · exact ih2 _
      · exact ih2 _

theorem runChecks_false (cs : List (Option Outcome)) (o : Outcome)
    (ho : o.result = false) : runChecks cs o = some o := by
  induction cs with
  | nil => simp [runChecks, forEach]
  | cons c cs ih =>
    unfold runChecks at ih ⊢
    simp only [forEach, Outcome.and_then, ho, Bool.false_eq_true, if_false,
      Option.bind]
    exact ih

theorem runChecks_from_true (cs : List (Option Outcome)) :
    ∀ o : Outcome, o.result = true →
      runChecks cs o
        = (runChecks cs Outcome.start).map
            (fun r => ⟨r.result, o.cerr ++ r.cerr⟩) := by
  induction cs with
  | nil =>
    intro o ho
    cases o with
    | mk b l =>
      simp only at ho
      subst ho
      simp [runChecks, forEach, Outcome.start]
  | cons c cs ih =>
    intro o ho
    cases c with
    | none => simp [runChecks, forEach, Outcome.and_then, ho, Outcome.start]
    | some r =>
      cases r with
      | mk b l =>
        have hstep : ∀ o : Outcome, o.result = true →
            runChecks (some ⟨b, l⟩ :: cs) o = runChecks cs ⟨b, o.cerr ++ l⟩ := by
          intro o ho
          simp [runChecks, forEach, Outcome.and_then, ho]
        rw [hstep o ho, hstep Outcome.start rfl]
        cases b with
        | false =>
          rw [runChecks_false cs _ rfl, runChecks_false cs _ rfl]
          simp [Outcome.start]
        | true =>
          rw [ih ⟨true, o.cerr ++ l⟩ rfl, ih ⟨true, Outcome.start.cerr ++ l⟩ rfl]
          simp [Outcome.start, Option.map_map, Function.comp_def]

theorem and_then_runChecks (cs : List (Option Outcome)) (o : Outcome) :
    o.and_then (runChecks cs Outcome.start) = runChecks cs o := by
  cases ho : o.result with
  | false =>
    rw [runChecks_false cs o ho]
    simp [Outcome.and_then, ho]
  | true =>
    rw [runChecks_from_true cs o ho]
    simp [Outcome.and_then, ho]

theorem forEach_append {α σ : Type} (body : α → σ → Option σ) (xs ys : List α) :
    ∀ s, forEach body (xs ++ ys) s = (forEach body xs s).bind (forEach body ys) := by
  induction xs with
  | nil => intro s; simp [forEach]
  | cons x xs ih =>
    intro s
    simp only [List.cons_append, forEach]
    cases body x s with
    | none => simp
    | some s1 => simp [ih s1]

theorem runChecks_append (as bs : List (Option Outcome)) (o : Outcome) :
    runChecks (as ++ bs) o = (runChecks as o).bind (runChecks bs) :=
  forEach_append _ as bs o

theorem runChecks_map {α : Type} (f : α → Option Outcome) (xs : List α) :
    ∀ o, forEach (fun x r => Outcome.and_then r (f x)) xs o
      = runChecks (xs.map f) o := by
  induction xs with
  | nil => intro o; simp [runChecks, forEach]
  | cons x xs ih =>
    intro o
    unfold runChecks at ih ⊢
    simp only [List.map_cons, forEach]
    cases Outcome.and_then o (f x) with
    | none => simp
    | some s1 => simp [ih s1]

theorem runChecks_cons (c : Option Outcome) (cs : List (Option Outcome))
    (o : Outcome) :
    runChecks (c :: cs) o = (o.and_then c).bind (runChecks cs) := rfl

theorem runChecks_nil (o : Outcome) : runChecks [] o = some o := rfl

theorem verify_elem_node_coord_by_part_4_eq (part : Part)
    (bucket_vector : List Bucket) (elem_node_coord : ElementNodePointerFieldType)
    (node_coord : VectorFieldType) (node_count : Nat) :
    verify_elem_node_coord_by_part_4 part bucket_vector elem_node_coord
        node_coord node_count
      = runChecks
          ((get_selected_entities (.part part) bucket_vector).map
            (fun e => verify_elem_node_coord_4 e elem_node_coord node_coord
              node_count))
          Outcome.start := by
  unfold verify_elem_node_coord_by_part_4
  exact runChecks_map _ _ _

/-- The pass `verifyMesh` is the chain of its component checks. -/
theorem verifyMesh_eq_runChecks (cdt : CentroidDimensionsTest)
    (mesh : UseCase_4_Mesh) :
    verifyMesh cdt mesh = runChecks (componentChecks cdt mesh) Outcome.start := by
  unfold verifyMesh componentChecks
  simp only [verify_elem_node_coord_by_part_4_eq, and_then_runChecks,
    runChecks_map, runChecks_append, runChecks_cons, runChecks_nil,
    Option.bind_assoc]

/-! ## Claims -/

/-- C1: for every node-id table, every local side ordinal of the element
topology and every side entity with at least as many node relations as the
side topology has nodes, `verify_elem_side_node` returns true exactly when,
for every index below the side's node count, the identifier of the side's
related node at that index is the table entry selected by the side node map. -/
theorem verify_elem_side_node_iff (ElemTraits : CellTopologyData)
    (elem_nodes : List EntityId) (local_side : Nat) (side : Entity)
    (sd : Subcell) (hside : ElemTraits.side[local_side]? = some sd)
    (hrel : sd.node_count ≤ side.relations_Node.length) :
    returnsTrue (verify_elem_side_node ElemTraits elem_nodes local_side side) ↔
      ∀ i, i < sd.node_count →
        (side.relations_Node[i]?).map Entity.identifier
          = (sd.node[i]?).bind (fun k => elem_nodes[k]?) := by
  unfold returnsTrue verify_elem_side_node
  simp only [hside]
  rw [forEach_result_true Outcome.result _
    (fun i => (side.relations_Node[i]?).map Entity.identifier
          = (sd.node[i]?).bind (fun k => elem_nodes[k]?))]
  · simp [Outcome.start]
  · intro i hi s
    apply verify_elem_side_node_body_true
    exact lt_of_lt_of_le (List.mem_range.mp hi) hrel

/-- C1 at side 0 of `Hexahedron<20>`, row 0 of `hex_node_ids` and the face
declared on side 0 of the first hexahedral element. -/
theorem verify_elem_side_node_iff_witness :
    Hexahedron20.side[0]? = some ⟨8, [0, 1, 5, 4, 8, 13, 16, 12]⟩ ∧
      8 ≤ example_hex_face.relations_Node.length ∧
      (returnsTrue (verify_elem_side_node Hexahedron20 (hex_node_ids.getD 0 []) 0
          example_hex_face) ↔
        ∀ i, i < 8 →
          (example_hex_face.relations_Node[i]?).map Entity.identifier
            = ([0, 1, 5, 4, 8, 13, 16, 12][i]?).bind
                (fun k => (hex_node_ids.getD 0 [])[k]?)) :=
  ⟨by decide, by decide,
    verify_elem_side_node_iff Hexahedron20 (hex_node_ids.getD 0 []) 0
      example_hex_face ⟨8, [0, 1, 5, 4, 8, 13, 16, 12]⟩ (by decide) (by decide)⟩

/-- C2: for every element with at least `node_count` node relations,
`verify_elem_node_coord_4` returns true exactly when the element has exactly
`node_count` node relations, the element-node pointer field on the element has
first dimension and total size `node_count`, and at every index below
`node_count` the coordinate field on the related node has first dimension 3 and
size 3 and the pointer stored at that index in the element-node field is the
address of that node's coordinate storage. -/
theorem verify_elem_node_coord_4_iff (elem : Entity)
    (elem_node_coord : ElementNodePointerFieldType)
    (node_coord : VectorFieldType) (node_count : Nat)
    (hrel : node_count ≤ elem.relations_Node.length) :
    returnsTrue (verify_elem_node_coord_4 elem elem_node_coord node_coord node_count) ↔
      (elem.relations_Node.length = node_count ∧
        (elem_node_coord elem).dimension0 = node_count ∧
        (elem_node_coord elem).size = node_count ∧
        ∀ i, i < node_count →
          ∃ node, elem.relations_Node[i]? = some node ∧
            (node_coord node).dimension0 = 3 ∧ (node_coord node).size = 3 ∧
            (elem_node_coord elem).contiguous_data[i]?
              = some (node_coord node).contiguous_data) := by
  unfold returnsTrue verify_elem_node_coord_4
  simp only []
  rw [forEach_result_true Outcome.result _
    (fun i => ∃ node, elem.relations_Node[i]? = some node ∧
            (node_coord node).dimension0 = 3 ∧ (node_coord node).size = 3 ∧
            (elem_node_coord elem).contiguous_data[i]?
              = some (node_coord node).contiguous_data)]
  · simp [check_result, Outcome.start, and_assoc]
  · intro i hi s
    apply verify_elem_node_coord_4_body_true
    exact lt_of_lt_of_le (List.mem_range.mp hi) hrel

/-- C2 at the first hexahedral element of the example mesh with node count
20. -/
theorem verify_elem_node_coord_4_iff_witness :
    20 ≤ example_hex_element.relations_Node.length ∧
      (returnsTrue (verify_elem_node_coord_4 example_hex_element
          example_mesh.element_node_coordinates_field
          example_mesh.coordinates_field 20) ↔
        (example_hex_element.relations_Node.length = 20 ∧
          (example_mesh.element_node_coordinates_field
            example_hex_element).dimension0 = 20 ∧
          (example_mesh.element_node_coordinates_field
            example_hex_element).size = 20 ∧
          ∀ i, i < 20 →
            ∃ node, example_hex_element.relations_Node[i]? = some node ∧
              (example_mesh.coordinates_field node).dimension0 = 3 ∧
              (example_mesh.coordinates_field node).size = 3 ∧
              (example_mesh.element_node_coordinates_field
                  example_hex_element).contiguous_data[i]?
                = some (example_mesh.coordinates_field node).contiguous_data)) :=
  ⟨by decide,
    verify_elem_node_coord_4_iff example_hex_element
      example_mesh.element_node_coordinates_field
      example_mesh.coordinates_field 20 (by decide)⟩

/-- C3: for every mesh in which each element of the element part has at least
`Traits_Full.node_count` node relations, `verify_pressure_velocity_stencil`
returns true exactly when the two topologies agree on dimension, vertex count,
edge count and face count, and every element of every Element bucket that has
the element part as a superset has exactly `Traits_Full.node_count` node
relations whose node at index `j` is in the linear node part with pressure
storage when `j` is below `Traits_Linear.node_count`, is outside the linear
node part without pressure storage otherwise, and has velocity storage in both
cases. -/
theorem verify_pressure_velocity_stencil_iff
    (Traits_Full Traits_Linear : CellTopologyData) (M : BulkData)
    (element_part linear_node_part : Part) (pressure : ScalarFieldType)
    (velocity : VectorFieldType)
    (hrel : ∀ b ∈ M.buckets .Element, has_superset b element_part = true →
      ∀ e ∈ b.entities, Traits_Full.node_count ≤ e.relations_Node.length) :
    returnsTrue (verify_pressure_velocity_stencil Traits_Full Traits_Linear M
        element_part linear_node_part pressure velocity) ↔
      ((Traits_Full.dimension = Traits_Linear.dimension ∧
          Traits_Full.vertex_count = Traits_Linear.vertex_count ∧
          Traits_Full.edge_count = Traits_Linear.edge_count ∧
          Traits_Full.face_count = Traits_Linear.face_count) ∧
        ∀ b ∈ M.buckets .Element, has_superset b element_part = true →
          ∀ e ∈ b.entities,
            e.relations_Node.length = Traits_Full.node_count ∧
            ∀ j, j < Traits_Full.node_count →
              ∃ node, e.relations_Node[j]? = some node ∧
                (j < Traits_Linear.node_count →
                  linear_node_part ∈ node.bucket_supersets ∧
                  field_data pressure node ≠ NULL) ∧
                (Traits_Linear.node_count ≤ j →
                  linear_node_part ∉ node.bucket_supersets ∧
                  field_data pressure node = NULL) ∧
                field_data velocity node ≠ NULL) := by
  unfold returnsTrue verify_pressure_velocity_stencil
  simp only []
  rw [forEach_result_true Outcome.result _
    (fun b => has_superset b element_part = true → ∀ e ∈ b.entities,
          (e.relations_Node.length = Traits_Full.node_count ∧
            ∀ j, j < Traits_Full.node_count →
              stencilNodeOk Traits_Linear linear_node_part pressure velocity
                e.relations_Node j))]
  · simp [check_result, Outcome.start, and_assoc, stencilNodeOk]
  · intro b hb s
    exact verify_pressure_velocity_stencil_bucket_true _ _ _ _ _ _ b (hrel b hb) s

/-- C3 for `Hexahedron<20>` over `Hexahedron<8>` on the example mesh: the
first 8 nodes of each element of `block_1` are in the vertex part and the
remaining 12 are not. -/
theorem verify_pressure_velocity_stencil_iff_witness :
    (∀ b ∈ example_mesh.bulkData.buckets .Element,
        has_superset b block_hex20 = true →
        ∀ e ∈ b.entities, 20 ≤ e.relations_Node.length) ∧
      (returnsTrue (verify_pressure_velocity_stencil Hexahedron20 Hexahedron8
          example_mesh.bulkData block_hex20 part_vertex_nodes
          example_mesh.pressure_field example_mesh.velocity_field) ↔
        ((Hexahedron20.dimension = Hexahedron8.dimension ∧
            Hexahedron20.vertex_count = Hexahedron8.vertex_count ∧
            Hexahedron20.edge_count = Hexahedron8.edge_count ∧
            Hexahedron20.face_count = Hexahedron8.face_count) ∧
          ∀ b ∈ example_mesh.bulkData.buckets .Element,
            has_superset b block_hex20 = true →
            ∀ e ∈ b.entities,
              e.relations_Node.length = 20 ∧
              ∀ j, j < 20 →
                ∃ node, e.relations_Node[j]? = some node ∧
                  (j < 8 →
                    part_vertex_nodes ∈ node.bucket_supersets ∧
                    field_data example_mesh.pressure_field node ≠ NULL) ∧
                  (8 ≤ j →
                    part_vertex_nodes ∉ node.bucket_supersets ∧
                    field_data example_mesh.pressure_field node = NULL) ∧
                  field_data example_mesh.velocity_field node ≠ NULL)) :=
  ⟨by decide,
    verify_pressure_velocity_stencil_iff Hexahedron20 Hexahedron8
      example_mesh.bulkData block_hex20 part_vertex_nodes
      example_mesh.pressure_field example_mesh.velocity_field (by decide)⟩

/-- C4, amended: for every mesh whose Node buckets are all non-empty and whose
Node buckets having the side part as a superset hold fewer than `2^32` nodes in
total, `verify_boundary_field_data` returns true exactly when (a) for every
Node bucket the boundary field data is present exactly when the bucket has the
side part as a superset, and (b) the number of node entities lying in buckets
whose boundary field data is present is 20. -/
theorem verify_boundary_field_data_iff (mesh : BulkData) (side_part : Part)
    (boundary_field : VectorFieldType)
    (hne : ∀ b ∈ mesh.buckets .Node, b.entities ≠ [])
    (hbound : (((mesh.buckets .Node).filter
        (fun b => has_superset b side_part)).map
      (fun b => b.entities.length)).sum < 2 ^ 32) :
    returnsTrue (verify_boundary_field_data mesh side_part boundary_field) ↔
      ((∀ b ∈ mesh.buckets .Node,
          (has_field_data boundary_field b = true ↔ side_part ∈ b.supersets)) ∧
        (((mesh.buckets .Node).filter
            (fun b => has_field_data boundary_field b)).map
          (fun b => b.entities.length)).sum = 20) := by
  rw [verify_boundary_field_data_mod_iff mesh side_part boundary_field hne]
  have hfilter : (∀ b ∈ mesh.buckets .Node,
      (has_field_data boundary_field b = true ↔ side_part ∈ b.supersets)) →
      (mesh.buckets .Node).filter (fun b => has_field_data boundary_field b)
        = (mesh.buckets .Node).filter (fun b => has_superset b side_part) := by
    intro hall
    apply List.filter_congr
    intro b hb
    have h := hall b hb
    cases hf : has_field_data boundary_field b <;>
      cases hs : has_superset b side_part <;>
      simp_all [has_superset]
  constructor
  · rintro ⟨hall, h20⟩
    refine ⟨hall, ?_⟩
    rw [hfilter hall] at h20 ⊢
    rw [Nat.mod_eq_of_lt hbound] at h20
    exact h20
  · rintro ⟨hall, h20⟩
    refine ⟨hall, ?_⟩
    rw [h20]
    decide

/-- C4, amended, on the example mesh, whose four Node buckets are all
non-empty and hold 20 side-part nodes. -/
theorem verify_boundary_field_data_iff_witness :
    (∀ b ∈ example_mesh.bulkData.buckets .Node, b.entities ≠ []) ∧
      (((example_mesh.bulkData.buckets .Node).filter
          (fun b => has_superset b side_part)).map
        (fun b => b.entities.length)).sum < 2 ^ 32 ∧
      (returnsTrue (verify_boundary_field_data example_mesh.bulkData side_part
          example_mesh.boundary_field) ↔
        ((∀ b ∈ example_mesh.bulkData.buckets .Node,
            (has_field_data example_mesh.boundary_field b = true ↔
              side_part ∈ b.supersets)) ∧
          (((example_mesh.bulkData.buckets .Node).filter
              (fun b => has_field_data example_mesh.boundary_field b)).map
            (fun b => b.entities.length)).sum = 20)) :=
  ⟨fun b hb h =>
      (by decide : ∀ b ∈ example_mesh.bulkData.buckets .Node,
        b.entities.length ≠ 0) b hb (by rw [h]; rfl),
    by decide,
    verify_boundary_field_data_iff example_mesh.bulkData side_part
      example_mesh.boundary_field
      (fun b hb h =>
        (by decide : ∀ b ∈ example_mesh.bulkData.buckets .Node,
          b.entities.length ≠ 0) b hb (by rw [h]; rfl))
      (by decide)⟩

theorem wrapping_bucket_length :
    wrapping_bucket.entities.length = wrapped_node_count := by
  simp only [wrapping_bucket, List.length_map, List.length_range']

theorem wrapping_bucket_head :
    wrapping_bucket.entities.head? = some (Entity.mk 1 [side_part] []) := by
  have h : wrapped_node_count = (2 ^ 32 + 19) + 1 := rfl
  simp only [wrapping_bucket, h, List.range'_succ, List.map_cons, List.head?_cons]

theorem wrapping_bucket_has_field_data :
    has_field_data (example_restricted_field side_part 3 11000) wrapping_bucket
      = true := by
  simp only [has_field_data, field_data_begin, wrapping_bucket_head, Option.map]
  decide

/-- C4 as stated fails on a mesh whose only Node bucket is non-empty, has the
side part as a superset, carries boundary field data and holds `2^32 + 20`
nodes: the `unsigned` counter wraps to 20 and `verify_boundary_field_data`
returns true, although the number of nodes with boundary field data is not
20. -/
theorem verify_boundary_field_data_wraps :
    (∀ b ∈ wrapping_bulk.buckets .Node, b.entities ≠ []) ∧
      returnsTrue (verify_boundary_field_data wrapping_bulk side_part
        (example_restricted_field side_part 3 11000)) ∧
      ¬ ((∀ b ∈ wrapping_bulk.buckets .Node,
            (has_field_data (example_restricted_field side_part 3 11000) b = true ↔
              side_part ∈ b.supersets)) ∧
          (((wrapping_bulk.buckets .Node).filter
              (fun b => has_field_data
                (example_restricted_field side_part 3 11000) b)).map
            (fun b => b.entities.length)).sum = 20) := by
  have hne : ∀ b ∈ wrapping_bulk.buckets .Node, b.entities ≠ [] := by
    intro b hb h
    simp only [wrapping_bulk, List.mem_singleton] at hb
    subst hb
    have hl := wrapping_bucket_length
    rw [h] at hl
    exact absurd hl (by decide)
  have hsum : (((wrapping_bulk.buckets .Node).filter
              (fun b => has_field_data
                (example_restricted_field side_part 3 11000) b)).map
            (fun b => b.entities.length)).sum = 2 ^ 32 + 20 := by
    simp only [wrapping_bulk, List.filter_cons, wrapping_bucket_has_field_data,
      if_true, List.filter_nil, List.map_cons, List.map_nil, List.sum_cons,
      List.sum_nil, wrapping_bucket_length, Nat.add_zero]
    rfl
  refine ⟨hne, ?_, ?_⟩
  · rw [verify_boundary_field_data_mod_iff _ _ _ hne, hsum]
    refine ⟨?_, by decide⟩
    intro b hb
    simp only [wrapping_bulk, List.mem_singleton] at hb
    subst hb
    simp only [wrapping_bucket_has_field_data, true_iff]
    simp [wrapping_bucket]
  · rintro ⟨_, h20⟩
    rw [hsum] at h20
    exact absurd h20 (by decide)

/-- The mesh `populate` builds is the one spelled out in `populated`. -/
theorem populate_eq : populate = some populated := by rfl

/-- On the example mesh every check of the pass succeeds silently. -/
theorem verifyMesh_example_mesh :
    verifyMesh example_centroid_test example_mesh = some ⟨true, []⟩ := by
  decide

/-- C5: `populate` returns, and in the mesh it builds the faces of the side
part (side 0 of the two hexahedra, side 4 of the three wedges) are related to
exactly 20 distinct nodes. -/
theorem populate_side_part_nodes_card :
    ∃ m, populate = some m ∧
      m.faces.map (fun f => (f.identifier, f.parts, f.nodes))
        = [(1, [side_part], [1, 7, 37, 31, 4, 22, 34, 16]),
           (2, [side_part], [7, 13, 43, 37, 10, 28, 40, 22]),
           (3, [side_part], [31, 37, 58, 34, 49, 46]),
           (4, [side_part], [37, 43, 64, 40, 55, 52]),
           (5, [side_part], [64, 58, 37, 61, 49, 52])] ∧
      (side_part_nodes m side_part).card = 20 :=
  ⟨populated, by rfl, by decide, by decide⟩

/-- C6: with the coordinates `populate` assigns, for each of the two
hexahedral elements the centroid over all 20 nodes equals the arithmetic mean
of the 8 corner nodes; for element 1 both are `(1, 1, -1)` (and for element 2
both are `(3, 1, -1)`). -/
theorem hex_centroid_eq_corner_mean :
    populate.map (fun m =>
      (m.elements.filter (fun e => e.parts.contains block_hex20)).map
        (fun e => (e.identifier, centroid_algorithm Hexahedron20 m e,
          (element_node_coordinates m e 8).map arithmetic_mean)))
      = some [(1, some [1, 1, -1], some [1, 1, -1]),
              (2, some [3, 1, -1], some [3, 1, -1])] := by
  have h : populate.map (fun m =>
      (m.elements.filter (fun e => e.parts.contains block_hex20)).map
        (fun e => (e.identifier, centroid_algorithm Hexahedron20 m e,
          (element_node_coordinates m e 8).map arithmetic_mean)))
      = some [(1, some (arithmetic_mean [
                          [0, 0, 0], [2, 0, 0], [2, 0, -2], [0, 0, -2], [0, 2, 0],
                          [2, 2, 0], [2, 2, -2], [0, 2, -2], [1, 0, 0], [2, 0, -1],
                          [1, 0, -2], [0, 0, -1], [0, 1, 0], [2, 1, 0], [2, 1, -2],
                          [0, 1, -2], [1, 2, 0], [2, 2, -1], [1, 2, -2], [0, 2, -1]]),
                  some (arithmetic_mean [
                          [0, 0, 0], [2, 0, 0], [2, 0, -2], [0, 0, -2], [0, 2, 0],
                          [2, 2, 0], [2, 2, -2], [0, 2, -2]])),
              (2, some (arithmetic_mean [
                          [2, 0, 0], [4, 0, 0], [4, 0, -2], [2, 0, -2], [2, 2, 0],
                          [4, 2, 0], [4, 2, -2], [2, 2, -2], [3, 0, 0], [4, 0, -1],
                          [3, 0, -2], [2, 0, -1], [2, 1, 0], [4, 1, 0], [4, 1, -2],
                          [2, 1, -2], [3, 2, 0], [4, 2, -1], [3, 2, -2], [2, 2, -1]]),
                  some (arithmetic_mean [
                          [2, 0, 0], [4, 0, 0], [4, 0, -2], [2, 0, -2], [2, 2, 0],
                          [4, 2, 0], [4, 2, -2], [2, 2, -2]]))] := by
    rfl
  rw [h]
  simp [arithmetic_mean, SpatialDim, List.range, List.range.loop]
  norm_num

/-- C7: on a mesh with two independent defects the pass reports only the
first: `verifyMesh` writes the single diagnostic of the element-node check of
element 1, while the component checks run on their own write that diagnostic
and two more for the missing boundary field data. -/
theorem verifyMesh_reports_first_failure_only :
    verifyMesh example_centroid_test defective_mesh = some ⟨false, [.error]⟩ ∧
      diagnosticsOfEach (componentChecks example_centroid_test defective_mesh)
        = [.error, .data_is_null, .data_is_null] := by
  decide

/-- C8: on an element without node relations `verify_elem_node_coord_4` with
node count 20 reads the relation list at index 0, past its end, whatever the
fields are: the run faults and no boolean is returned. -/
theorem verify_elem_node_coord_4_faults
    (elem_node_coord : ElementNodePointerFieldType)
    (node_coord : VectorFieldType) :
    verify_elem_node_coord_4 element_without_nodes elem_node_coord node_coord 20
      = none := by
  rfl

/-- C9: when every component check of `verifyMesh` returns, `verifyMesh`
returns, and its result is true exactly when every component check returns
true: the element-node coordinate check of every element of `block_1` with
node count 20 and of `block_2` with node count 15, the side-node check of the
i-th face of `block_1` and `sideset_1` against row i of `hex_node_ids` on side
0 and of the i-th face of `block_2` and `sideset_1` against row i of
`wedge_node_ids` on side 4, the two centroid dimension checks, the boundary
field check, and the two pressure/velocity stencil checks. -/
theorem verifyMesh_result_iff (cdt : CentroidDimensionsTest)
    (mesh : UseCase_4_Mesh)
    (htotal : ∀ c ∈ componentChecks cdt mesh, c.isSome = true) :
    ∃ b, (verifyMesh cdt mesh).map Outcome.result = some b ∧
      (b = true ↔
        ((∀ e ∈ get_selected_entities (.part block_hex20)
              (mesh.bulkData.buckets .Element),
            returnsTrue (verify_elem_node_coord_4 e
              mesh.element_node_coordinates_field mesh.coordinates_field 20)) ∧
          (∀ i, i < (get_selected_entities
                (.and (.part block_hex20) (.part side_part))
                (mesh.bulkData.buckets .Face)).length →
            returnsTrue (verify_elem_side_node_at Hexahedron20 hex_node_ids 0
              (get_selected_entities (.and (.part block_hex20) (.part side_part))
                (mesh.bulkData.buckets .Face)) i)) ∧
          (∀ e ∈ get_selected_entities (.part block_wedge15)
              (mesh.bulkData.buckets .Element),
            returnsTrue (verify_elem_node_coord_4 e
              mesh.element_node_coordinates_field mesh.coordinates_field 15)) ∧
          (∀ i, i < (get_selected_entities
                (.and (.part block_wedge15) (.part side_part))
                (mesh.bulkData.buckets .Face)).length →
            returnsTrue (verify_elem_side_node_at Wedge15 wedge_node_ids 4
              (get_selected_entities
                (.and (.part block_wedge15) (.part side_part))
                (mesh.bulkData.buckets .Face)) i)) ∧
          returnsTrue (cdt Hexahedron20 mesh.bulkData mesh.centroid_field
            mesh.element_node_coordinates_field block_hex20) ∧
          returnsTrue (cdt Wedge15 mesh.bulkData mesh.centroid_field
            mesh.element_node_coordinates_field block_wedge15) ∧
          returnsTrue (verify_boundary_field_data mesh.bulkData side_part
            mesh.boundary_field) ∧
          returnsTrue (verify_pressure_velocity_stencil Hexahedron20 Hexahedron8
            mesh.bulkData block_hex20 part_vertex_nodes mesh.pressure_field
            mesh.velocity_field) ∧
          returnsTrue (verify_pressure_velocity_stencil Wedge15 Wedge6
            mesh.bulkData block_wedge15 part_vertex_nodes mesh.pressure_field
            mesh.velocity_field))) := by
  have hsome := runChecks_isSome (componentChecks cdt mesh) htotal Outcome.start
  have htrue := runChecks_returnsTrue (componentChecks cdt mesh) Outcome.start
  rw [← verifyMesh_eq_runChecks] at hsome htrue
  cases hrun : verifyMesh cdt mesh with
  | none => rw [hrun] at hsome; simp at hsome
  | some o =>
    refine ⟨o.result, rfl, ?_⟩
    rw [hrun] at htrue
    simp only [returnsTrue, Option.map, Option.some.injEq, Outcome.start,
      true_and] at htrue
    rw [htrue]
    simp only [componentChecks, List.mem_append, List.mem_map, List.mem_range,
      List.mem_cons, List.mem_singleton, List.not_mem_nil, or_false]
    constructor
    · intro h
      refine ⟨?_, ?_, ?_, ?_, ?_, ?_, ?_, ?_, ?_⟩
      · intro e he
        exact h _ (Or.inl (Or.inl (Or.inl (Or.inl ⟨e, he, rfl⟩))))
      · intro i hi
        exact h _ (Or.inl (Or.inl (Or.inl (Or.inr ⟨i, hi, rfl⟩))))
      · intro e he
        exact h _ (Or.inl (Or.inl (Or.inr ⟨e, he, rfl⟩)))
      · intro i hi
        exact h _ (Or.inl (Or.inr ⟨i, hi, rfl⟩))
      · exact h _ (Or.inr (Or.inl rfl))
      · exact h _ (Or.inr (Or.inr (Or.inl rfl)))
      · exact h _ (Or.inr (Or.inr (Or.inr (Or.inl rfl))))
      · exact h _ (Or.inr (Or.inr (Or.inr (Or.inr (Or.inl rfl)))))
      · exact h _ (Or.inr (Or.inr (Or.inr (Or.inr (Or.inr rfl)))))
    · rintro ⟨h1, h2, h3, h4, h5, h6, h7, h8, h9⟩ c hc
      rcases hc with (((⟨e, he, rfl⟩ | ⟨i, hi, rfl⟩) | ⟨e, he, rfl⟩) | ⟨i, hi, rfl⟩) |
        rfl | rfl | rfl | rfl | rfl
      · exact h1 e he
      · exact h2 i hi
      · exact h3 e he
      · exact h4 i hi
      · exact h5
      · exact h6
      · exact h7
      · exact h8
      · exact h9

/-- C9 on the example mesh, on which every component check returns. -/
theorem verifyMesh_result_iff_witness :
    (∀ c ∈ componentChecks example_centroid_test example_mesh,
        c.isSome = true) ∧
      (∃ b, (verifyMesh example_centroid_test example_mesh).map Outcome.result = some b ∧
        (b = true ↔
          ((∀ e ∈ get_selected_entities (.part block_hex20)
                (example_mesh.bulkData.buckets .Element),
              returnsTrue (verify_elem_node_coord_4 e
                example_mesh.element_node_coordinates_field example_mesh.coordinates_field 20)) ∧
            (∀ i, i < (get_selected_entities
                  (.and (.part block_hex20) (.part side_part))
                  (example_mesh.bulkData.buckets .Face)).length →
              returnsTrue (verify_elem_side_node_at Hexahedron20 hex_node_ids 0
                (get_selected_entities (.and (.part block_hex20) (.part side_part))
                  (example_mesh.bulkData.buckets .Face)) i)) ∧
            (∀ e ∈ get_selected_entities (.part block_wedge15)
                (example_mesh.bulkData.buckets .Element),
              returnsTrue (verify_elem_node_coord_4 e
                example_mesh.element_node_coordinates_field example_mesh.coordinates_field 15)) ∧
            (∀ i, i < (get_selected_entities
                  (.and (.part block_wedge15) (.part side_part))
                  (example_mesh.bulkData.buckets .Face)).length →
              returnsTrue (verify_elem_side_node_at Wedge15 wedge_node_ids 4
                (get_selected_entities
                  (.and (.part block_wedge15) (.part side_part))
                  (example_mesh.bulkData.buckets .Face)) i)) ∧
            returnsTrue (example_centroid_test Hexahedron20 example_mesh.bulkData example_mesh.centroid_field
              example_mesh.element_node_coordinates_field block_hex20) ∧
            returnsTrue (example_centroid_test Wedge15 example_mesh.bulkData example_mesh.centroid_field
              example_mesh.element_node_coordinates_field block_wedge15) ∧
            returnsTrue (verify_boundary_field_data example_mesh.bulkData side_part
              example_mesh.boundary_field) ∧
            returnsTrue (verify_pressure_velocity_stencil Hexahedron20 Hexahedron8
              example_mesh.bulkData block_hex20 part_vertex_nodes example_mesh.pressure_field
              example_mesh.velocity_field) ∧
            returnsTrue (verify_pressure_velocity_stencil Wedge15 Wedge6
              example_mesh.bulkData block_wedge15 part_vertex_nodes example_mesh.pressure_field
              example_mesh.velocity_field)))) :=
  ⟨by decide,
    verifyMesh_result_iff example_centroid_test example_mesh (by decide)⟩

/-- C10: `populate` returns, and across the elements it declares no node
identifier at a vertex position of an element (the first 8 entries of a
hexahedron row, the first 6 of a wedge row) is at a non-vertex position of the
same or another element (entries 8 to 19 of a hexahedron row, 6 to 14 of a
wedge row). -/
theorem populate_vertex_nodes_not_mid_nodes :
    ∃ m, populate = some m ∧
      m.elements.map (fun e => ((vertex_position_nodes e).length,
          (non_vertex_position_nodes e).length))
        = [(8, 12), (8, 12), (6, 9), (6, 9), (6, 9)] ∧
      ∀ e1 ∈ m.elements, ∀ e2 ∈ m.elements,
        ∀ id ∈ vertex_position_nodes e1, id ∉ non_vertex_position_nodes e2 :=
  ⟨populated, by rfl, by decide, by decide⟩

/-- C11: `populate` returns; the elements it declares are related to the first
20 entries of each `hex_node_ids` row and the first 15 entries of each
`wedge_node_ids` row, and every such node identifier lies in 1..66. The
coordinate table has 66 rows, the coordinate loop writes once on each existing
node, in increasing order of identifier, and after it each identifier in 1..66
carries exactly row `id - 1` of `node_coord_data` when some element uses it and
nothing otherwise. -/
theorem populate_node_ids_in_range :
    ∃ m, populate = some m ∧
      m.elements.map (fun e => e.nodes)
        = hex_node_ids.map (fun row => row.take 20)
          ++ wedge_node_ids.map (fun row => row.take 15) ∧
      (∀ e ∈ m.elements, ∀ id ∈ e.nodes, 1 ≤ id ∧ id ≤ node_count) ∧
      node_coord_data.length = node_count ∧
      m.coordinates.map (fun c => c.1)
        = ((List.range node_count).map (fun i => i + 1)).filter
            (node_exists m.elements) ∧
      (∀ id, 1 ≤ id → id ≤ node_count →
        node_coordinates m id
          = if node_exists m.elements id then node_coord_data[id - 1]? else none) ∧
      ∀ e ∈ m.elements, ∀ id ∈ e.nodes,
        ∃ row, node_coord_data[id - 1]? = some row ∧
          node_coordinates m id = some row := by
  have hbound : ∀ e ∈ populated.elements, ∀ id ∈ e.nodes,
      1 ≤ id ∧ id ≤ node_count := by decide
  have hlen : node_coord_data.length = node_count := by rfl
  have hcoord : ∀ id, 1 ≤ id → id ≤ node_count →
      node_coordinates populated id
        = if node_exists populated.elements id then node_coord_data[id - 1]?
          else none := ?_
  · refine ⟨populated, by rfl, by decide, hbound, hlen, by decide, hcoord, ?_⟩
    intro e he id hid
    have hb : 1 ≤ id ∧ id ≤ node_count := hbound e he id hid
    have hb1 : 1 ≤ id := hb.1
    have hb2 : id ≤ node_count := hb.2
    have hex : node_exists populated.elements id = true := by
      unfold node_exists
      rw [List.any_eq_true]
      exact ⟨e, he, by simpa using hid⟩
    have hlt : id - 1 < node_coord_data.length := by
      rw [hlen]
      exact Nat.lt_of_lt_of_le (Nat.sub_lt hb1 Nat.one_pos) hb2
    refine ⟨node_coord_data[id - 1], List.getElem?_eq_getElem hlt, ?_⟩
    rw [hcoord id hb.1 hb.2, hex, if_pos rfl]
    exact List.getElem?_eq_getElem hlt
  intro id h1 h66
  have hall : (List.range node_count).map
        (fun i => node_coordinates populated (i + 1))
      = (List.range node_count).map
        (fun i => if node_exists populated.elements (i + 1)
          then node_coord_data[i]? else none) := by
    rfl
  have hi := List.map_inj_left.mp hall (id - 1)
    (List.mem_range.mpr (by omega))
  have hid : id - 1 + 1 = id := by omega
  simp only [hid] at hi
  exact hi

end UseCase4
